import Mathlib

/-!
Verification development for the ChatEmbeddingDB repository
(MyMindSpace chat-embedding record service).

The JavaScript source is shallowly embedded:

* JavaScript values are modelled by `JsVal` (numbers as rationals; ISO-8601
  instants are order-embedded into the rationals, so a call of
  `new Date().toISOString()` becomes an explicit clock parameter `now : ℚ`);
* JavaScript objects are association lists `JsObj`, with last-binding-wins
  lookup `objGet` mirroring object spread semantics;
* the AstraDB collection is a `Store := List JsObj`; `findOne`, `insertOne`,
  `replaceOne`, `deleteOne` and `$set` merging mirror the document API used
  by `src/services/chatEmbeddingService.js`;
* the Joi schemas of `middleware/validation.js` become boolean checkers;
* the repository holds two variants of `updateChatEmbedding`: version A
  (whole-record replace) and version B (field merge).  Both are embedded.
-/

namespace ChatEmbeddingDB

/-- A JavaScript value, as used by the service: `undefined`, `null`,
booleans, numbers (modelled as rationals), strings, arrays and objects. -/
inductive JsVal : Type where
  | vundefined : JsVal
  | vnull : JsVal
  | vbool : Bool → JsVal
  | vnum : ℚ → JsVal
  | vstr : String → JsVal
  | varr : List JsVal → JsVal
  | vobj : List (String × JsVal) → JsVal

/-- A JavaScript object: an association list of fields. -/
abbrev JsObj := List (String × JsVal)

/-- Lookup scanning from the front (used on the reversed list so that the
last binding wins, as in JavaScript object spread). -/
def objGetRev : JsObj → String → JsVal
  | [], _ => .vundefined
  | (k', v) :: rest, k => if k' = k then v else objGetRev rest k

/-- Field access `o.k`: the value of the last binding of `k`, or `undefined`. -/
def objGet (o : JsObj) (k : String) : JsVal :=
  objGetRev o.reverse k

/-- Whether the object has a binding for the key `k`. -/
def objHasKey (o : JsObj) (k : String) : Bool :=
  o.any (fun p => p.1 == k)

/-- Nested field access `v.k` on a value that may not be an object
(yields `undefined` otherwise, as optional chaining / Mongo dotted paths do
on missing subdocuments). -/
def objField : JsVal → String → JsVal
  | .vobj fs, k => objGet fs k
  | _, _ => .vundefined

/-- JavaScript truthiness: `undefined`, `null`, `false`, `0` and `""` are
falsy; every array and object is truthy. -/
def truthy : JsVal → Bool
  | .vundefined => false
  | .vnull => false
  | .vbool b => b
  | .vnum q => q != 0
  | .vstr s => s != ""
  | .varr _ => true
  | .vobj _ => true

/-- The JavaScript expression `a || b`. -/
def jsOr (a b : JsVal) : JsVal :=
  if truthy a then a else b

/-! ## Document store gateway (the AstraDB collection, §4.2 of the spec) -/

/-- The backing collection: a list of stored documents. -/
abbrev Store := List JsObj

/-- Whether a stored document matches the id filter `{ _id: id }`. -/
def idMatches (d : JsObj) (id : String) : Bool :=
  match objGet d "_id" with
  | .vstr s => s == id
  | _ => false

/-- `collection.findOne({ _id: id })`. -/
def findOne : Store → String → Option JsObj
  | [], _ => none
  | d :: rest, id => if idMatches d id then some d else findOne rest id

/-- `collection.insertOne(doc)`: the document is appended; the insert result
carries the document's `_id` as `insertedId`. -/
def insertOne (s : Store) (d : JsObj) : Store :=
  s ++ [d]

/-- `collection.replaceOne({ _id: id }, doc)`: replaces the first matching
document and reports `matchedCount`. -/
def replaceOne : Store → String → JsObj → Store × Nat
  | [], _, _ => ([], 0)
  | d :: rest, id, repl =>
      if idMatches d id then (repl :: rest, 1)
      else
        let r := replaceOne rest id repl
        (d :: r.1, r.2)

/-- `collection.deleteOne({ _id: id })`: removes the first matching document
and reports `deletedCount`. -/
def deleteOne : Store → String → Store × Nat
  | [], _ => ([], 0)
  | d :: rest, id =>
      if idMatches d id then (rest, 1)
      else
        let r := deleteOne rest id
        (d :: r.1, r.2)

/-- Set a single field of an object (used by `$set`). -/
def objSet (o : JsObj) (k : String) (v : JsVal) : JsObj :=
  (o.filter (fun p => p.1 != k)) ++ [(k, v)]

/-- Mongo-style `$set` merge: every field of `upd` is written onto `doc`;
fields of `doc` not named in `upd` are left untouched. -/
def setMerge (doc upd : JsObj) : JsObj :=
  upd.foldl (fun d p => objSet d p.1 p.2) doc

/-! ## Schema contract (`middleware/validation.js`)

The Joi schemas become boolean checkers.  The middleware validates with
`abortEarly: false, allowUnknown: false, stripUnknown: true`, so unknown
keys do not cause rejection (they would be stripped from the validated
value — which the middleware then discards, passing the raw `req.body` on).
A key bound to `undefined` is treated as absent, as Joi does. -/

/-- Hexadecimal digit (for `Joi.string().uuid()`). -/
def isHexDigit (c : Char) : Bool :=
  c.isDigit || ('a' ≤ c && c ≤ 'f') || ('A' ≤ c && c ≤ 'F')

/-- Canonical 8-4-4-4-12 UUID shape. -/
def uuidShape (s : String) : Bool :=
  let cs := s.toList
  cs.length == 36 &&
    (List.range 36).all (fun i =>
      let c := cs.getD i ' '
      if i == 8 || i == 13 || i == 18 || i == 23 then c == '-' else isHexDigit c)

/-- `Joi.string().uuid()`. -/
def isUuidStr : JsVal → Bool
  | .vstr s => uuidShape s
  | _ => false

/-- `Joi.string().min(lo).max(hi)` (Joi strings reject `""` unless
`min(0)`/`allow('')` is given, so the effective minimum is at least 1). -/
def isStringLen (v : JsVal) (lo hi : Nat) : Bool :=
  match v with
  | .vstr s => max 1 lo ≤ s.length && s.length ≤ hi
  | _ => false

/-- `Joi.string().valid(...)`. -/
def strOneOf (v : JsVal) (allowed : List String) : Bool :=
  match v with
  | .vstr s => allowed.contains s
  | _ => false

/-- A nonempty free-form `Joi.string()`. -/
def isNonemptyStr : JsVal → Bool
  | .vstr s => s != ""
  | _ => false

/-- A number. -/
def isNumVal : JsVal → Bool
  | .vnum _ => true
  | _ => false

/-- `Joi.number().min(lo)`. -/
def numberMin (v : JsVal) (lo : ℚ) : Bool :=
  match v with
  | .vnum q => lo ≤ q
  | _ => false

/-- `Joi.number().min(lo).max(hi)`. -/
def numberBetween (v : JsVal) (lo hi : ℚ) : Bool :=
  match v with
  | .vnum q => lo ≤ q && q ≤ hi
  | _ => false

/-- `Joi.number().integer().min(lo).max(hi)`. -/
def integerBetween (v : JsVal) (lo hi : ℚ) : Bool :=
  match v with
  | .vnum q => q.den == 1 && lo ≤ q && q ≤ hi
  | _ => false

/-- `Joi.number().integer().min(lo)`. -/
def integerMin (v : JsVal) (lo : ℚ) : Bool :=
  match v with
  | .vnum q => q.den == 1 && lo ≤ q
  | _ => false

/-- A boolean. -/
def isBoolVal : JsVal → Bool
  | .vbool _ => true
  | _ => false

/-- `Joi.array().items(Joi.number()).length(n)`. -/
def arrayOfNumbersLen (v : JsVal) (n : Nat) : Bool :=
  match v with
  | .varr xs => xs.length == n && xs.all isNumVal
  | _ => false

/-- `Joi.array().items(Joi.string())`. -/
def arrayOfStrings : JsVal → Bool
  | .varr xs => xs.all (fun x => match x with | .vstr _ => true | _ => false)
  | _ => false

/-- Joi `.optional()`: an absent (or undefined) value passes; a present one
must satisfy the field's own check. -/
def optionalF (v : JsVal) (check : JsVal → Bool) : Bool :=
  match v with
  | .vundefined => true
  | _ => check v

/-- Joi `.required()`: the value must be present and satisfy the check. -/
def requiredF (v : JsVal) (check : JsVal → Bool) : Bool :=
  match v with
  | .vundefined => false
  | _ => check v

/-- The eight named emotions of `emotionSchema`. -/
def emotionNames : List String :=
  ["joy", "sadness", "anger", "fear", "surprise", "disgust", "anticipation", "trust"]

/-- `emotionSchema`: each named emotion is optional (with declared default 0)
and, when present, in [0,1]; unknown keys are stripped, not rejected. -/
def emotionsAccepts : JsVal → Bool
  | .vobj fs => fs.all (fun p =>
      if emotionNames.contains p.1 then numberBetween p.2 0 1 else true)
  | _ => false

/-- `emotionContextSchema`. -/
def emotionContextAccepts (v : JsVal) : Bool :=
  match v with
  | .vobj _ =>
      strOneOf (objField v "dominant_emotion") emotionNames &&
      numberBetween (objField v "intensity") 0 1 &&
      requiredF (objField v "emotions") emotionsAccepts
  | _ => false

/-- `entitiesMentionedSchema`: `people`/`locations`/`organizations`, each an
optional array of strings (with declared default `[]`). -/
def entitiesAccepts (v : JsVal) : Bool :=
  match v with
  | .vobj _ =>
      optionalF (objField v "people") arrayOfStrings &&
      optionalF (objField v "locations") arrayOfStrings &&
      optionalF (objField v "organizations") arrayOfStrings
  | _ => false

/-- `temporalContextSchema`. -/
def temporalContextAccepts (v : JsVal) : Bool :=
  match v with
  | .vobj _ =>
      integerBetween (objField v "hour_of_day") 0 23 &&
      integerBetween (objField v "day_of_week") 0 6 &&
      requiredF (objField v "is_weekend") isBoolVal
  | _ => false

/-- `chatEmbeddingSchema` — the full creation contract (variant with the
feature-vector fields): every required field present with its constraint,
optional fields checked when present, unknown keys tolerated. -/
def fullContractAccepts (d : JsObj) : Bool :=
  isUuidStr (objGet d "user_id") &&
  isUuidStr (objGet d "entry_id") &&
  isStringLen (objGet d "message_content") 1 10000 &&
  strOneOf (objGet d "message_type") ["user_message", "ai_response", "system_message"] &&
  isUuidStr (objGet d "session_id") &&
  optionalF (objGet d "conversation_context") (fun v => isStringLen v 1 2000) &&
  arrayOfNumbersLen (objGet d "primary_embedding") 768 &&
  arrayOfNumbersLen (objGet d "lightweight_embedding") 384 &&
  integerMin (objGet d "text_length") 0 &&
  numberMin (objGet d "processing_time_ms") 0 &&
  isNonemptyStr (objGet d "model_version") &&
  optionalF (objGet d "semantic_tags") arrayOfStrings &&
  optionalF (objGet d "emotion_context") emotionContextAccepts &&
  optionalF (objGet d "entities_mentioned") entitiesAccepts &&
  arrayOfNumbersLen (objGet d "feature_vector") 90 &&
  arrayOfNumbersLen (objGet d "temporal_features") 25 &&
  arrayOfNumbersLen (objGet d "emotional_features") 20 &&
  arrayOfNumbersLen (objGet d "semantic_features") 30 &&
  arrayOfNumbersLen (objGet d "user_features") 15 &&
  numberBetween (objGet d "feature_completeness") 0 1 &&
  numberBetween (objGet d "confidence_score") 0 1 &&
  temporalContextAccepts (objGet d "temporal_context")

/-- `updateChatEmbeddingSchema` — the partial update contract: the same
constraints, but every field optional. -/
def updateContractAccepts (d : JsObj) : Bool :=
  optionalF (objGet d "message_content") (fun v => isStringLen v 1 10000) &&
  optionalF (objGet d "message_type")
    (fun v => strOneOf v ["user_message", "ai_response", "system_message"]) &&
  optionalF (objGet d "conversation_context") (fun v => isStringLen v 1 2000) &&
  optionalF (objGet d "primary_embedding") (fun v => arrayOfNumbersLen v 768) &&
  optionalF (objGet d "lightweight_embedding") (fun v => arrayOfNumbersLen v 384) &&
  optionalF (objGet d "text_length") (fun v => integerMin v 0) &&
  optionalF (objGet d "processing_time_ms") (fun v => numberMin v 0) &&
  optionalF (objGet d "model_version") isNonemptyStr &&
  optionalF (objGet d "semantic_tags") arrayOfStrings &&
  optionalF (objGet d "emotion_context") emotionContextAccepts &&
  optionalF (objGet d "entities_mentioned") entitiesAccepts &&
  optionalF (objGet d "feature_vector") (fun v => arrayOfNumbersLen v 90) &&
  optionalF (objGet d "temporal_features") (fun v => arrayOfNumbersLen v 25) &&
  optionalF (objGet d "emotional_features") (fun v => arrayOfNumbersLen v 20) &&
  optionalF (objGet d "semantic_features") (fun v => arrayOfNumbersLen v 30) &&
  optionalF (objGet d "user_features") (fun v => arrayOfNumbersLen v 15) &&
  optionalF (objGet d "feature_completeness") (fun v => numberBetween v 0 1) &&
  optionalF (objGet d "confidence_score") (fun v => numberBetween v 0 1) &&
  optionalF (objGet d "temporal_context") temporalContextAccepts

/-- The seven fixed-length vector fields of the creation contract and their
declared exact lengths. -/
def vecFields : List (String × Nat) :=
  [("primary_embedding", 768), ("lightweight_embedding", 384),
   ("feature_vector", 90), ("temporal_features", 25),
   ("emotional_features", 20), ("semantic_features", 30),
   ("user_features", 15)]

/-- The value is an array whose length differs from the declared one. -/
def badLen (v : JsVal) (n : Nat) : Bool :=
  match v with
  | .varr xs => xs.length != n
  | _ => false

/-- Some fixed-length vector field of the input is an array of the wrong
length. -/
def vecLenViolation (d : JsObj) : Bool :=
  vecFields.any (fun p => badLen (objGet d p.1) p.2)

/-! ## Embedding record service, version A
(`services/chatEmbeddingService.js`, whole-record-replace variant)

Each operation takes the generated id and the clock reading as explicit
parameters and threads the store explicitly.  Service-level failures are
`Except.error` carrying the message of the rethrown, wrapped error
(`throw new Error(\x60Failed to ...: ${error.message}\x60)`). -/

/-- The service-side default for `entities_mentioned`. -/
def emptyEntities : JsVal :=
  .vobj [("people", .varr []), ("locations", .varr []), ("organizations", .varr [])]

/-- The store document built by `createChatEmbedding` (lines 21–50): the
assigned `_id`, the caller fields, the primary vector stored under the
AstraDB slot `$vector`, service defaults for `semantic_tags` and
`entities_mentioned`, and `timestamp = created_at = updated_at = now`. -/
def createDocumentA (newId : String) (now : ℚ) (d : JsObj) : JsObj :=
  [("_id", .vstr newId),
   ("user_id", objGet d "user_id"),
   ("entry_id", objGet d "entry_id"),
   ("message_content", objGet d "message_content"),
   ("message_type", objGet d "message_type"),
   ("timestamp", .vnum now),
   ("session_id", objGet d "session_id"),
   ("conversation_context", objGet d "conversation_context"),
   ("$vector", objGet d "primary_embedding"),
   ("lightweight_embedding", objGet d "lightweight_embedding"),
   ("text_length", objGet d "text_length"),
   ("processing_time_ms", objGet d "processing_time_ms"),
   ("model_version", objGet d "model_version"),
   ("semantic_tags", jsOr (objGet d "semantic_tags") (.varr [])),
   ("emotion_context", objGet d "emotion_context"),
   ("entities_mentioned", jsOr (objGet d "entities_mentioned") emptyEntities),
   ("feature_vector", objGet d "feature_vector"),
   ("temporal_features", objGet d "temporal_features"),
   ("emotional_features", objGet d "emotional_features"),
   ("semantic_features", objGet d "semantic_features"),
   ("user_features", objGet d "user_features"),
   ("feature_completeness", objGet d "feature_completeness"),
   ("confidence_score", objGet d "confidence_score"),
   ("temporal_context", objGet d "temporal_context"),
   ("created_at", .vnum now),
   ("updated_at", .vnum now)]

/-- `createChatEmbedding` (version A): insert the built document, and return
`{ id: document._id, ...document, insertedId: result.insertedId }` — i.e.
the raw store document spread into the response. -/
def createChatEmbeddingA (d : JsObj) (newId : String) (now : ℚ) (store : Store) :
    Store × JsObj :=
  let document := createDocumentA newId now d
  (insertOne store document,
   ("id", .vstr newId) :: document ++ [("insertedId", .vstr newId)])

/-- The public record shape (version A), as produced by
`getChatEmbeddingById` (lines 75–104) and by the tail of
`updateChatEmbedding` (lines 167–196): the stored `$vector` slot is
re-exposed under the public name `primary_embedding`. -/
def publicRecord (r : JsObj) : JsObj :=
  [("id", objGet r "_id"),
   ("user_id", objGet r "user_id"),
   ("entry_id", objGet r "entry_id"),
   ("message_content", objGet r "message_content"),
   ("message_type", objGet r "message_type"),
   ("timestamp", objGet r "timestamp"),
   ("session_id", objGet r "session_id"),
   ("conversation_context", objGet r "conversation_context"),
   ("primary_embedding", objGet r "$vector"),
   ("lightweight_embedding", objGet r "lightweight_embedding"),
   ("text_length", objGet r "text_length"),
   ("processing_time_ms", objGet r "processing_time_ms"),
   ("model_version", objGet r "model_version"),
   ("semantic_tags", objGet r "semantic_tags"),
   ("emotion_context", objGet r "emotion_context"),
   ("entities_mentioned", objGet r "entities_mentioned"),
   ("feature_vector", objGet r "feature_vector"),
   ("temporal_features", objGet r "temporal_features"),
   ("emotional_features", objGet r "emotional_features"),
   ("semantic_features", objGet r "semantic_features"),
   ("user_features", objGet r "user_features"),
   ("feature_completeness", objGet r "feature_completeness"),
   ("confidence_score", objGet r "confidence_score"),
   ("temporal_context", objGet r "temporal_context"),
   ("created_at", objGet r "created_at"),
   ("updated_at", objGet r "updated_at")]

/-- `getChatEmbeddingById`: a missing document raises
`'Chat embedding not found'`, which the surrounding catch rewraps into
`'Failed to get chat embedding: ...'` before it reaches the caller. -/
def getChatEmbeddingById (id : String) (store : Store) : Except String JsObj :=
  match findOne store id with
  | none => .error "Failed to get chat embedding: Chat embedding not found"
  | some r => .ok (publicRecord r)

/-- The replacement document of `updateChatEmbedding` version A
(lines 123–152): every field is taken from the new input (with the same
service defaults as create), only `_id` and `created_at` are preserved;
`timestamp` falls back to the update-time clock when the input carries
none, and `updated_at` is refreshed. -/
def replacementDocumentA (id : String) (nd : JsObj) (now : ℚ) (createdAt : JsVal) :
    JsObj :=
  [("_id", .vstr id),
   ("user_id", objGet nd "user_id"),
   ("entry_id", objGet nd "entry_id"),
   ("message_content", objGet nd "message_content"),
   ("message_type", objGet nd "message_type"),
   ("timestamp", jsOr (objGet nd "timestamp") (.vnum now)),
   ("session_id", objGet nd "session_id"),
   ("conversation_context", objGet nd "conversation_context"),
   ("$vector", objGet nd "primary_embedding"),
   ("lightweight_embedding", objGet nd "lightweight_embedding"),
   ("text_length", objGet nd "text_length"),
   ("processing_time_ms", objGet nd "processing_time_ms"),
   ("model_version", objGet nd "model_version"),
   ("semantic_tags", jsOr (objGet nd "semantic_tags") (.varr [])),
   ("emotion_context", objGet nd "emotion_context"),
   ("entities_mentioned", jsOr (objGet nd "entities_mentioned") emptyEntities),
   ("feature_vector", objGet nd "feature_vector"),
   ("temporal_features", objGet nd "temporal_features"),
   ("emotional_features", objGet nd "emotional_features"),
   ("semantic_features", objGet nd "semantic_features"),
   ("user_features", objGet nd "user_features"),
   ("feature_completeness", objGet nd "feature_completeness"),
   ("confidence_score", objGet nd "confidence_score"),
   ("temporal_context", objGet nd "temporal_context"),
   ("created_at", createdAt),
   ("updated_at", .vnum now)]

/-- `updateChatEmbedding` version A — whole-record replace: look the entry
up (a miss raises the wrapped not-found error), build the replacement
document, `replaceOne`, re-read and return the mapped record.  After a
successful replace the re-read cannot miss, so that branch is dead. -/
def updateChatEmbeddingA (id : String) (nd : JsObj) (now : ℚ) (store : Store) :
    Except String (Store × JsObj) :=
  match findOne store id with
  | none => .error "Failed to update chat embedding: Chat embedding not found"
  | some existingEntry =>
      let repl := replacementDocumentA id nd now (objGet existingEntry "created_at")
      let res := replaceOne store id repl
      if res.2 == 0 then
        .error "Failed to update chat embedding: Chat embedding not found"
      else
        let updatedEntry := (findOne res.1 id).getD []
        .ok (res.1, publicRecord updatedEntry)

/-- `deleteChatEmbedding`: `deletedCount === 0` raises the wrapped
not-found error (and removes nothing). -/
def deleteChatEmbedding (id : String) (store : Store) :
    Except String (Store × JsObj) :=
  let res := deleteOne store id
  if res.2 == 0 then
    .error "Failed to delete chat embedding: Chat embedding not found"
  else
    .ok (res.1, [("id", .vstr id), ("deleted", .vbool true),
                 ("deletedCount", .vnum (res.2 : ℚ))])

/-- The per-item projection of `queryChatEmbeddings` (lines 408–435): the
paginated listing omits both embedding vectors. -/
def queryResultItemA (r : JsObj) : JsObj :=
  [("id", objGet r "_id"),
   ("user_id", objGet r "user_id"),
   ("entry_id", objGet r "entry_id"),
   ("message_content", objGet r "message_content"),
   ("message_type", objGet r "message_type"),
   ("timestamp", objGet r "timestamp"),
   ("session_id", objGet r "session_id"),
   ("conversation_context", objGet r "conversation_context"),
   ("text_length", objGet r "text_length"),
   ("processing_time_ms", objGet r "processing_time_ms"),
   ("model_version", objGet r "model_version"),
   ("semantic_tags", objGet r "semantic_tags"),
   ("emotion_context", objGet r "emotion_context"),
   ("entities_mentioned", objGet r "entities_mentioned"),
   ("feature_vector", objGet r "feature_vector"),
   ("temporal_features", objGet r "temporal_features"),
   ("emotional_features", objGet r "emotional_features"),
   ("semantic_features", objGet r "semantic_features"),
   ("user_features", objGet r "user_features"),
   ("feature_completeness", objGet r "feature_completeness"),
   ("confidence_score", objGet r "confidence_score"),
   ("temporal_context", objGet r "temporal_context"),
   ("created_at", objGet r "created_at"),
   ("updated_at", objGet r "updated_at")]

/-- The per-item projection of `findSimilarChatEmbeddings` (lines 271–301):
both vectors in full, plus the store-computed `$similarity` re-exposed as
`similarity_score`. -/
def similarResultItemA (r : JsObj) : JsObj :=
  [("id", objGet r "_id"),
   ("user_id", objGet r "user_id"),
   ("entry_id", objGet r "entry_id"),
   ("message_content", objGet r "message_content"),
   ("message_type", objGet r "message_type"),
   ("timestamp", objGet r "timestamp"),
   ("session_id", objGet r "session_id"),
   ("conversation_context", objGet r "conversation_context"),
   ("primary_embedding", objGet r "$vector"),
   ("lightweight_embedding", objGet r "lightweight_embedding"),
   ("text_length", objGet r "text_length"),
   ("processing_time_ms", objGet r "processing_time_ms"),
   ("model_version", objGet r "model_version"),
   ("semantic_tags", objGet r "semantic_tags"),
   ("emotion_context", objGet r "emotion_context"),
   ("entities_mentioned", objGet r "entities_mentioned"),
   ("feature_vector", objGet r "feature_vector"),
   ("temporal_features", objGet r "temporal_features"),
   ("emotional_features", objGet r "emotional_features"),
   ("semantic_features", objGet r "semantic_features"),
   ("user_features", objGet r "user_features"),
   ("feature_completeness", objGet r "feature_completeness"),
   ("confidence_score", objGet r "confidence_score"),
   ("temporal_context", objGet r "temporal_context"),
   ("similarity_score", objGet r "$similarity"),
   ("created_at", objGet r "created_at"),
   ("updated_at", objGet r "updated_at")]

/-! ## Embedding record service, version B — field-merge update
(second `updateChatEmbedding` in the repository, lines 602–660) -/

/-- The sparse `$set` payload built by version B: `updated_at` is always
refreshed; every other field is included only when present in the input —
via JavaScript truthiness for most fields, and via an explicit
`!== undefined` check for `text_length` and `processing_time_ms`. -/
def buildUpdateDocB (nd : JsObj) (now : ℚ) : JsObj :=
  let u : JsObj := [("updated_at", .vnum now)]
  let u := if truthy (objGet nd "primary_embedding") then
      u ++ [("$vector", objGet nd "primary_embedding")] else u
  let u := if truthy (objGet nd "message_content") then
      u ++ [("message_content", objGet nd "message_content")] else u
  let u := if truthy (objGet nd "message_type") then
      u ++ [("message_type", objGet nd "message_type")] else u
  let u := if truthy (objGet nd "conversation_context") then
      u ++ [("conversation_context", objGet nd "conversation_context")] else u
  let u := if truthy (objGet nd "lightweight_embedding") then
      u ++ [("lightweight_embedding", objGet nd "lightweight_embedding")] else u
  let u := match objGet nd "text_length" with
    | .vundefined => u
    | v => u ++ [("text_length", v)]
  let u := match objGet nd "processing_time_ms" with
    | .vundefined => u
    | v => u ++ [("processing_time_ms", v)]
  let u := if truthy (objGet nd "model_version") then
      u ++ [("model_version", objGet nd "model_version")] else u
  let u := if truthy (objGet nd "semantic_tags") then
      u ++ [("semantic_tags", objGet nd "semantic_tags")] else u
  let u := if truthy (objGet nd "emotion_context") then
      u ++ [("emotion_context", objGet nd "emotion_context")] else u
  let u := if truthy (objGet nd "entities_mentioned") then
      u ++ [("entities_mentioned", objGet nd "entities_mentioned")] else u
  let u := if truthy (objGet nd "temporal_context") then
      u ++ [("temporal_context", objGet nd "temporal_context")] else u
  u

/-- The public record shape used by version B's update return value
(no feature-vector fields in that variant's document). -/
def publicRecordB (r : JsObj) : JsObj :=
  [("id", objGet r "_id"),
   ("user_id", objGet r "user_id"),
   ("entry_id", objGet r "entry_id"),
   ("message_content", objGet r "message_content"),
   ("message_type", objGet r "message_type"),
   ("timestamp", objGet r "timestamp"),
   ("session_id", objGet r "session_id"),
   ("conversation_context", objGet r "conversation_context"),
   ("primary_embedding", objGet r "$vector"),
   ("lightweight_embedding", objGet r "lightweight_embedding"),
   ("text_length", objGet r "text_length"),
   ("processing_time_ms", objGet r "processing_time_ms"),
   ("model_version", objGet r "model_version"),
   ("semantic_tags", objGet r "semantic_tags"),
   ("emotion_context", objGet r "emotion_context"),
   ("entities_mentioned", objGet r "entities_mentioned"),
   ("temporal_context", objGet r "temporal_context"),
   ("created_at", objGet r "created_at"),
   ("updated_at", objGet r "updated_at")]

/-- `updateChatEmbedding` version B — `findOneAndUpdate` with
`{ $set: updateDoc }` and `returnDocument: 'after'`: a miss raises the
wrapped not-found error; otherwise the sparse payload is merged onto the
existing document in place and the merged document is returned. -/
def updateChatEmbeddingB (id : String) (nd : JsObj) (now : ℚ) (store : Store) :
    Except String (Store × JsObj) :=
  match findOne store id with
  | none => .error "Failed to update chat embedding: Chat embedding not found"
  | some doc =>
      let merged := setMerge doc (buildUpdateDocB nd now)
      let res := replaceOne store id merged
      .ok (res.1, publicRecordB merged)

/-! ## Similarity-search filter composition
(`findSimilarChatEmbeddings`, lines 228–254)

The ranking itself is delegated to the store (out of scope, spec §4.2);
what the service owns — and what is modelled — is the query object built
from the optional filters and its match semantics on stored documents. -/

/-- The optional `date_range` filter. -/
structure DateRange where
  dstart : Option ℚ
  dend : Option ℚ

/-- The optional `emotion_filter`. -/
structure EmotionFilter where
  dominant_emotion : Option String
  min_intensity : Option ℚ

/-- The optional similarity-search filters. -/
structure SimilarFilters where
  user_id : Option String
  session_id : Option String
  message_type : Option String
  date_range : Option DateRange
  emotion_filter : Option EmotionFilter
  semantic_tags : Option (List String)

/-- JavaScript truthiness of an optional string filter value
(`if (filters.user_id) ...`). -/
def presentStr : Option String → Option String
  | some s => if s ≠ "" then some s else none
  | none => none

/-- The query object assembled by the conditional clauses: each key is set
exactly when its source line's truthiness test passes.  Note the
`if (filters.emotion_filter.min_intensity)` test: a present `0` is falsy in
JavaScript, so `min_intensity = 0` contributes no clause.  A present
`date_range` always creates `query.timestamp` (possibly with neither
bound). -/
structure MongoQuery where
  quser : Option String
  qsession : Option String
  qmtype : Option String
  qtimestamp : Option (Option ℚ × Option ℚ)
  qdom : Option String
  qmin : Option ℚ
  qtags : Option (List String)

/-- Build the similarity query from the filters (lines 231–254). -/
def buildSimilarQuery (f : SimilarFilters) : MongoQuery where
  quser := presentStr f.user_id
  qsession := presentStr f.session_id
  qmtype := presentStr f.message_type
  qtimestamp := match f.date_range with
    | some dr => some (dr.dstart, dr.dend)
    | none => none
  qdom := match f.emotion_filter with
    | some ef => presentStr ef.dominant_emotion
    | none => none
  qmin := match f.emotion_filter with
    | some ef => match ef.min_intensity with
      | some m => if m ≠ 0 then some m else none
      | none => none
    | none => none
  qtags := match f.semantic_tags with
    | some tags => if tags.length > 0 then some tags else none
    | none => none

/-- `timestamp: { $gte: g }` on a stored document. -/
def tsGe (d : JsObj) (g : ℚ) : Bool :=
  match objGet d "timestamp" with
  | .vnum t => g ≤ t
  | _ => false

/-- `timestamp: { $lte: l }` on a stored document. -/
def tsLe (d : JsObj) (l : ℚ) : Bool :=
  match objGet d "timestamp" with
  | .vnum t => t ≤ l
  | _ => false

/-- Document-side semantics of the assembled query, following the Mongo
style Data API: equality on scalar keys, `$gte`/`$lte` ranges, dotted paths
that fail on missing subdocuments, `$in` matching when some stored tag is
in the requested set, and a bare `{}` value demanding equality with the
empty document. -/
def docMatches (q : MongoQuery) (d : JsObj) : Bool :=
  (match q.quser with
   | some u => (match objGet d "user_id" with | .vstr s => s == u | _ => false)
   | none => true) &&
  (match q.qsession with
   | some u => (match objGet d "session_id" with | .vstr s => s == u | _ => false)
   | none => true) &&
  (match q.qmtype with
   | some u => (match objGet d "message_type" with | .vstr s => s == u | _ => false)
   | none => true) &&
  (match q.qtimestamp with
   | none => true
   | some (none, none) =>
       (match objGet d "timestamp" with | .vobj [] => true | _ => false)
   | some (some g, none) => tsGe d g
   | some (none, some l) => tsLe d l
   | some (some g, some l) => tsGe d g && tsLe d l) &&
  (match q.qdom with
   | some de =>
       (match objField (objGet d "emotion_context") "dominant_emotion" with
        | .vstr s => s == de
        | _ => false)
   | none => true) &&
  (match q.qmin with
   | some m =>
       (match objField (objGet d "emotion_context") "intensity" with
        | .vnum q' => m ≤ q'
        | _ => false)
   | none => true) &&
  (match q.qtags with
   | some tags =>
       (match objGet d "semantic_tags" with
        | .varr xs => xs.any (fun x => match x with
            | .vstr s => tags.contains s
            | _ => false)
        | _ => false)
   | none => true)

/-- The documents the gateway may hand back to `findSimilarChatEmbeddings`
for a given filter set: exactly those matching the assembled query (their
ranking and truncation to `limit` belong to the external store). -/
def similarReturnedDocs (f : SimilarFilters) (store : Store) : List JsObj :=
  store.filter (docMatches (buildSimilarQuery f))

/-- The claim's per-record property for `emotion_filter.min_intensity`: the
record carries an `emotion_context.intensity` that is at least `m`. -/
def intensityAtLeast (d : JsObj) (m : ℚ) : Bool :=
  match objField (objGet d "emotion_context") "intensity" with
  | .vnum q' => m ≤ q'
  | _ => false

/-! ## Pagination metadata (`queryChatEmbeddings`, lines 436–442) -/

/-- The pagination object returned by the paginated query. -/
structure Pagination where
  total_count : Nat
  current_page : Nat
  total_pages : Nat
  has_next : Bool
  has_previous : Bool

/-- The source arithmetic, with JavaScript's float division and
`Math.floor`/`Math.ceil` rendered as rational division with `⌊·⌋₊`/`⌈·⌉₊`. -/
def queryPagination (totalCount offset limit : Nat) : Pagination where
  total_count := totalCount
  current_page := ⌊(offset : ℚ) / (limit : ℚ)⌋₊ + 1
  total_pages := ⌈(totalCount : ℚ) / (limit : ℚ)⌉₊
  has_next := decide (offset + limit < totalCount)
  has_previous := decide (0 < offset)

/-! ## Route layer (`routes/chatEmbeddings.js`)

The validation middleware answers 400 before the service runs; a service
error whose message is exactly `'Chat embedding not found'` is mapped to
404, any other error goes to `next(error)` — the generic error handler. -/

/-- The observable outcome of a route handler. -/
inductive RouteResp : Type where
  | ok (status : Nat) (body : JsObj)
  | validationError
  | notFound
  | nextError (msg : String)

/-- `POST /` with `validate(chatEmbeddingSchema)` (lines 86–98). -/
def postCreateRoute (body : JsObj) (store : Store) (newId : String) (now : ℚ) :
    RouteResp × Store :=
  if fullContractAccepts body then
    let r := createChatEmbeddingA body newId now store
    (.ok 201 r.2, r.1)
  else (.validationError, store)

/-- `GET /:id` (lines 103–120) with its exact-match 404 mapping. -/
def getByIdRoute (id : String) (store : Store) : RouteResp :=
  match getChatEmbeddingById id store with
  | .ok r => .ok 200 r
  | .error m =>
      if m = "Chat embedding not found" then .notFound else .nextError m

/-- `PUT /:id` with `validate(updateChatEmbeddingSchema)` (lines 125–143),
calling the whole-record-replace service. -/
def putRoute (id : String) (body : JsObj) (store : Store) (now : ℚ) :
    RouteResp × Store :=
  if updateContractAccepts body then
    match updateChatEmbeddingA id body now store with
    | .ok sr => (.ok 200 sr.2, sr.1)
    | .error m =>
        ((if m = "Chat embedding not found" then .notFound else .nextError m),
         store)
  else (.validationError, store)

/-- `DELETE /:id` (lines 148–166). -/
def deleteRoute (id : String) (store : Store) : RouteResp × Store :=
  match deleteChatEmbedding id store with
  | .ok sr => (.ok 200 sr.2, sr.1)
  | .error m =>
      ((if m = "Chat embedding not found" then .notFound else .nextError m),
       store)

/-- The length invariant of a stored document's vector fields (the primary
vector lives in the `$vector` slot). -/
def storedVectorsOk (doc : JsObj) : Bool :=
  arrayOfNumbersLen (objGet doc "$vector") 768 &&
  arrayOfNumbersLen (objGet doc "lightweight_embedding") 384 &&
  arrayOfNumbersLen (objGet doc "feature_vector") 90 &&
  arrayOfNumbersLen (objGet doc "temporal_features") 25 &&
  arrayOfNumbersLen (objGet doc "emotional_features") 20 &&
  arrayOfNumbersLen (objGet doc "semantic_features") 30 &&
  arrayOfNumbersLen (objGet doc "user_features") 15

/-! ## Concrete inputs used by witnesses and counterexamples -/

/-- The required fields of the creation contract, with contract-conformant
concrete values (the sample of `tests/api.test.js`, with deterministic
vectors). -/
def baseFields : JsObj :=
  [("user_id", .vstr "550e8400-e29b-41d4-a716-446655440000"),
   ("entry_id", .vstr "550e8400-e29b-41d4-a716-446655440001"),
   ("message_content", .vstr "hello"),
   ("message_type", .vstr "user_message"),
   ("session_id", .vstr "550e8400-e29b-41d4-a716-446655440002"),
   ("primary_embedding", .varr (List.replicate 768 (.vnum 0))),
   ("lightweight_embedding", .varr (List.replicate 384 (.vnum 0))),
   ("text_length", .vnum 5),
   ("processing_time_ms", .vnum 2),
   ("model_version", .vstr "all-mpnet-base-v2"),
   ("feature_vector", .varr (List.replicate 90 (.vnum 0))),
   ("temporal_features", .varr (List.replicate 25 (.vnum 0))),
   ("emotional_features", .varr (List.replicate 20 (.vnum 0))),
   ("semantic_features", .varr (List.replicate 30 (.vnum 0))),
   ("user_features", .varr (List.replicate 15 (.vnum 0))),
   ("feature_completeness", .vnum 1),
   ("confidence_score", .vnum 1),
   ("temporal_context",
    .vobj [("hour_of_day", .vnum 14), ("day_of_week", .vnum 1),
           ("is_weekend", .vbool false)])]

/-- A full-contract input that also supplies `semantic_tags`. -/
def sampleInput : JsObj :=
  baseFields ++ [("semantic_tags", .varr [.vstr "greeting"])]

/-- A full-contract input with an `emotion_context` whose `emotions` map
sets only `joy`, leaving the other seven per-emotion scores unset; it
supplies neither `semantic_tags` nor `entities_mentioned`. -/
def sparseEmotionInput : JsObj :=
  baseFields ++
    [("emotion_context",
      .vobj [("dominant_emotion", .vstr "fear"),
             ("intensity", .vnum 1),
             ("emotions", .vobj [("joy", .vnum 0)])])]

/-- An otherwise valid creation input whose primary embedding has 767
entries instead of 768. -/
def badVectorInput : JsObj :=
  objSet baseFields "primary_embedding" (.varr (List.replicate 767 (.vnum 0)))

/-- A partial update touching only `semantic_tags` (accepted by the update
contract). -/
def tagsOnlyUpdate : JsObj :=
  [("semantic_tags", .varr [.vstr "updated"])]

/-- The store after creating `sampleInput` under id `"id0"` at clock 0. -/
def storeAfterCreate : Store :=
  (createChatEmbeddingA sampleInput "id0" 0 []).1

/-- A store holding one unrelated document. -/
def storeOne : Store :=
  [createDocumentA "other-id" 0 sampleInput]

/-- A stored document with no `emotion_context` at all. -/
def noEmotionDoc : JsObj :=
  [("_id", .vstr "d0"), ("user_id", .vstr "u1"), ("timestamp", .vnum 5)]

/-- A stored document whose `emotion_context.intensity` is 1. -/
def emotionDoc : JsObj :=
  [("_id", .vstr "d1"),
   ("emotion_context",
    .vobj [("dominant_emotion", .vstr "joy"), ("intensity", .vnum 1)]),
   ("timestamp", .vnum 5)]

/-- Similarity filters with `emotion_filter.min_intensity = 0` and nothing
else. -/
def zeroIntensityFilters : SimilarFilters :=
  ⟨none, none, none, none, some ⟨none, some 0⟩, none⟩

/-- Similarity filters with `emotion_filter.min_intensity = 1` and nothing
else. -/
def oneIntensityFilters : SimilarFilters :=
  ⟨none, none, none, none, some ⟨none, some 1⟩, none⟩

/-- No similarity filters at all. -/
def noFilters : SimilarFilters :=
  ⟨none, none, none, none, none, none⟩

/-- Similarity filters carrying only a `date_range`. -/
def dateFilters (g l : Option ℚ) : SimilarFilters :=
  ⟨none, none, none, some ⟨g, l⟩, none, none⟩

/-! ## Shared helper lemmas -/

theorem nat_ceil_div_eq (t l : Nat) (hl : 1 ≤ l) :
    ⌈(t : ℚ) / (l : ℚ)⌉₊ = (t + l - 1) / l := by
  have hl0 : (0:ℚ) < (l : ℚ) := by exact_mod_cast hl
  apply le_antisymm
  · rw [Nat.ceil_le, div_le_iff₀ hl0]
    have h1 : (t + l - 1) / l * l + (t + l - 1) % l = t + l - 1 :=
      Nat.div_add_mod' _ _
    have h2 : (t + l - 1) % l < l := Nat.mod_lt _ hl
    have h3 : t ≤ (t + l - 1) / l * l := by omega
    exact_mod_cast h3
  · rw [Nat.div_le_iff_le_mul_add_pred hl]
    have h4 : (t : ℚ) / (l : ℚ) ≤ (⌈(t : ℚ) / (l : ℚ)⌉₊ : ℚ) := Nat.le_ceil _
    rw [div_le_iff₀ hl0] at h4
    have h5 : t ≤ ⌈(t : ℚ) / (l : ℚ)⌉₊ * l := by exact_mod_cast h4
    have h6 : l * ⌈(t : ℚ) / (l : ℚ)⌉₊ = ⌈(t : ℚ) / (l : ℚ)⌉₊ * l :=
      Nat.mul_comm _ _
    omega

theorem nat_floor_div_eq (o l : Nat) :
    ⌊(o : ℚ) / (l : ℚ)⌋₊ = o / l := by
  rw [Nat.floor_div_nat, Nat.floor_natCast]

theorem findOne_append {s : Store} {id : String} (h : findOne s id = none)
    (t : Store) : findOne (s ++ t) id = findOne t id := by
  induction s with
  | nil => simp
  | cons x rest ih =>
      simp only [findOne] at h
      by_cases hx : idMatches x id = true
      · rw [if_pos hx] at h; cases h
      · rw [if_neg hx] at h
        simpa only [List.cons_append, findOne, if_neg hx] using ih h

theorem replaceOne_append {s : Store} {id : String} (h : findOne s id = none)
    (t : Store) (repl : JsObj) :
    replaceOne (s ++ t) id repl =
      (s ++ (replaceOne t id repl).1, (replaceOne t id repl).2) := by
  induction s with
  | nil => simp
  | cons x rest ih =>
      simp only [findOne] at h
      by_cases hx : idMatches x id = true
      · rw [if_pos hx] at h; cases h
      · rw [if_neg hx] at h
        simp only [List.cons_append, replaceOne, if_neg hx, List.append_eq,
          ih h]

theorem idMatches_createDoc (newId : String) (now : ℚ) (d : JsObj) :
    idMatches (createDocumentA newId now d) newId = true := by
  have h : objGet (createDocumentA newId now d) "_id" = .vstr newId := rfl
  simp [idMatches, h]

theorem idMatches_replacementDoc (id : String) (nd : JsObj) (now : ℚ)
    (createdAt : JsVal) :
    idMatches (replacementDocumentA id nd now createdAt) id = true := by
  have h : objGet (replacementDocumentA id nd now createdAt) "_id" = .vstr id :=
    rfl
  simp [idMatches, h]

theorem jsOr_of_truthy {v : JsVal} (h : truthy v = true) (b : JsVal) :
    jsOr v b = v := by
  simp [jsOr, h]

theorem truthy_of_arrayOfStrings {v : JsVal} (h : arrayOfStrings v = true) :
    truthy v = true := by
  cases v <;> simp_all [arrayOfStrings, truthy]

theorem truthy_of_entities {v : JsVal} (h : entitiesAccepts v = true) :
    truthy v = true := by
  cases v <;> simp_all [entitiesAccepts, truthy]

theorem optionalF_of_ne {v : JsVal} {c : JsVal → Bool}
    (h : optionalF v c = true) (hne : v ≠ .vundefined) : c v = true := by
  cases v <;> simp_all [optionalF]

theorem accepts_tags {d : JsObj} (h : fullContractAccepts d = true) :
    optionalF (objGet d "semantic_tags") arrayOfStrings = true := by
  simp only [fullContractAccepts, Bool.and_eq_true] at h
  tauto

theorem accepts_entities {d : JsObj} (h : fullContractAccepts d = true) :
    optionalF (objGet d "entities_mentioned") entitiesAccepts = true := by
  simp only [fullContractAccepts, Bool.and_eq_true] at h
  tauto

theorem accepts_vectors {d : JsObj} (h : fullContractAccepts d = true) :
    arrayOfNumbersLen (objGet d "primary_embedding") 768 = true ∧
    arrayOfNumbersLen (objGet d "lightweight_embedding") 384 = true ∧
    arrayOfNumbersLen (objGet d "feature_vector") 90 = true ∧
    arrayOfNumbersLen (objGet d "temporal_features") 25 = true ∧
    arrayOfNumbersLen (objGet d "emotional_features") 20 = true ∧
    arrayOfNumbersLen (objGet d "semantic_features") 30 = true ∧
    arrayOfNumbersLen (objGet d "user_features") 15 = true := by
  simp only [fullContractAccepts, Bool.and_eq_true] at h
  tauto

theorem arrayLen_false_of_badLen {v : JsVal} {n : Nat}
    (h : badLen v n = true) : arrayOfNumbersLen v n = false := by
  cases v <;> simp_all [badLen, arrayOfNumbersLen]

theorem findOne_insert_create {store : Store} {newId : String}
    (h : findOne store newId = none) (now : ℚ) (d : JsObj) :
    findOne (insertOne store (createDocumentA newId now d)) newId =
      some (createDocumentA newId now d) := by
  rw [insertOne, findOne_append h]
  simp [findOne, idMatches_createDoc]

/-! ## Claims -/

set_option maxRecDepth 100000

/-- Claim C1.  The public contract promises that fields omitted from an
update request are never silently cleared.  The `PUT /:id` route accepts
partial inputs (`updateChatEmbeddingSchema`), yet the whole-record-replace
`updateChatEmbedding` (version A) rebuilds every field from the new input,
so a field omitted from the input is overwritten with `undefined`.  At the
concrete failing input — a stored record with `message_content = "hello"`
and an accepted partial update touching only `semantic_tags` — version A
clears `message_content` to `undefined`, while the field-merge version B
preserves it (and does apply the requested tag update). -/
theorem chatdb_C1_updateA_clears_omitted_fields :
    updateContractAccepts tagsOnlyUpdate = true ∧
    objGet (createDocumentA "id0" 0 sampleInput) "message_content" =
      .vstr "hello" ∧
    (match updateChatEmbeddingA "id0" tagsOnlyUpdate 1 storeAfterCreate with
     | .ok sr => objGet sr.2 "message_content"
     | .error _ => .vnull) = .vundefined ∧
    (match updateChatEmbeddingB "id0" tagsOnlyUpdate 1 storeAfterCreate with
     | .ok sr => objGet sr.2 "message_content"
     | .error _ => .vnull) = .vstr "hello" ∧
    (match updateChatEmbeddingB "id0" tagsOnlyUpdate 1 storeAfterCreate with
     | .ok sr => objGet sr.2 "semantic_tags"
     | .error _ => .vnull) = .varr [.vstr "updated"] ∧
    JsVal.vundefined ≠ JsVal.vstr "hello" := by
  refine ⟨rfl, rfl, rfl, rfl, rfl, fun h => JsVal.noConfusion h⟩

/-- Claim C2.  For every input accepted by the full creation contract,
`create` followed by `getById` on the returned id yields a record equal to
the input on all caller-supplied fields, the only differences being the
service-assigned `id`, `timestamp`, `created_at` and `updated_at`. -/
theorem chatdb_C2_create_then_getById (d : JsObj) (store : Store)
    (newId : String) (now : ℚ)
    (hacc : fullContractAccepts d = true)
    (hfresh : findOne store newId = none) :
    ∃ r, getChatEmbeddingById newId (createChatEmbeddingA d newId now store).1
        = .ok r ∧
      objGet r "id" = .vstr newId ∧
      objGet r "timestamp" = .vnum now ∧
      objGet r "created_at" = .vnum now ∧
      objGet r "updated_at" = .vnum now ∧
      objGet r "user_id" = objGet d "user_id" ∧
      objGet r "entry_id" = objGet d "entry_id" ∧
      objGet r "message_content" = objGet d "message_content" ∧
      objGet r "message_type" = objGet d "message_type" ∧
      objGet r "session_id" = objGet d "session_id" ∧
      objGet r "conversation_context" = objGet d "conversation_context" ∧
      objGet r "primary_embedding" = objGet d "primary_embedding" ∧
      objGet r "lightweight_embedding" = objGet d "lightweight_embedding" ∧
      objGet r "text_length" = objGet d "text_length" ∧
      objGet r "processing_time_ms" = objGet d "processing_time_ms" ∧
      objGet r "model_version" = objGet d "model_version" ∧
      (objGet d "semantic_tags" ≠ .vundefined →
        objGet r "semantic_tags" = objGet d "semantic_tags") ∧
      objGet r "emotion_context" = objGet d "emotion_context" ∧
      (objGet d "entities_mentioned" ≠ .vundefined →
        objGet r "entities_mentioned" = objGet d "entities_mentioned") ∧
      objGet r "feature_vector" = objGet d "feature_vector" ∧
      objGet r "temporal_features" = objGet d "temporal_features" ∧
      objGet r "emotional_features" = objGet d "emotional_features" ∧
      objGet r "semantic_features" = objGet d "semantic_features" ∧
      objGet r "user_features" = objGet d "user_features" ∧
      objGet r "feature_completeness" = objGet d "feature_completeness" ∧
      objGet r "confidence_score" = objGet d "confidence_score" ∧
      objGet r "temporal_context" = objGet d "temporal_context" := by
  have hfind := findOne_insert_create hfresh now d
  have hok : getChatEmbeddingById newId
      (createChatEmbeddingA d newId now store).1 =
      .ok (publicRecord (createDocumentA newId now d)) := by
    show getChatEmbeddingById newId
      (insertOne store (createDocumentA newId now d)) = _
    simp only [getChatEmbeddingById, hfind]
  refine ⟨publicRecord (createDocumentA newId now d), hok,
    rfl, rfl, rfl, rfl, rfl, rfl, rfl, rfl, rfl, rfl, rfl, rfl, rfl, rfl, rfl,
    ?_, rfl, ?_, rfl, rfl, rfl, rfl, rfl, rfl, rfl, rfl⟩
  · intro hne
    have h1 := optionalF_of_ne (accepts_tags hacc) hne
    show jsOr (objGet d "semantic_tags") (.varr []) = objGet d "semantic_tags"
    exact jsOr_of_truthy (truthy_of_arrayOfStrings h1) _
  · intro hne
    have h1 := optionalF_of_ne (accepts_entities hacc) hne
    show jsOr (objGet d "entities_mentioned") emptyEntities =
      objGet d "entities_mentioned"
    exact jsOr_of_truthy (truthy_of_entities h1) _

/-- Witness for C2 at the concrete accepted input `sampleInput`. -/
theorem chatdb_C2_witness :
    fullContractAccepts sampleInput = true ∧
    ∃ r, getChatEmbeddingById "id0"
        (createChatEmbeddingA sampleInput "id0" 0 []).1 = .ok r ∧
      objGet r "message_content" = objGet sampleInput "message_content" ∧
      objGet r "semantic_tags" = objGet sampleInput "semantic_tags" := by
  have hacc : fullContractAccepts sampleInput = true := by decide
  obtain ⟨r, hok, _, _, _, _, _, _, hmc, rest⟩ :=
    chatdb_C2_create_then_getById sampleInput [] "id0" 0 hacc rfl
  obtain ⟨_, _, _, _, _, _, _, _, htags, _⟩ := rest
  exact ⟨hacc, r, hok, hmc, htags (fun h => JsVal.noConfusion h)⟩

/-- Claim C3.  On an identifier matching no stored document, the service
raises `'Chat embedding not found'` — but its surrounding catch rewraps
every error into `'Failed to ...: Chat embedding not found'`, and the
route layer maps to 404 only on an exact match with
`'Chat embedding not found'`.  So at the concrete unused id the HTTP layer
receives the generic `next(error)` failure, not the typed not-found one;
the no-write part of the claim does hold (update and delete leave the
store unchanged). -/
theorem chatdb_C3_not_found_is_wrapped :
    getChatEmbeddingById "missing-id" storeOne =
      .error "Failed to get chat embedding: Chat embedding not found" ∧
    getByIdRoute "missing-id" storeOne =
      .nextError "Failed to get chat embedding: Chat embedding not found" ∧
    getByIdRoute "missing-id" storeOne ≠ .notFound ∧
    deleteRoute "missing-id" storeOne =
      (.nextError "Failed to delete chat embedding: Chat embedding not found",
       storeOne) ∧
    putRoute "missing-id" tagsOnlyUpdate storeOne 1 =
      (.nextError "Failed to update chat embedding: Chat embedding not found",
       storeOne) := by
  refine ⟨rfl, rfl, ?_, rfl, rfl⟩
  intro h
  rw [show getByIdRoute "missing-id" storeOne =
    .nextError "Failed to get chat embedding: Chat embedding not found"
    from rfl] at h
  exact RouteResp.noConfusion h

/-- Counterexample to claim C4 as stated: after `create(x)` at clock 0 and
`replace(id, x)` with the identical payload at clock 1, the record's
`timestamp` is 1, not the created record's 0 — the creation contract
carries no `timestamp` field, so the replace falls back to a fresh clock
reading instead of preserving the stored event time. -/
theorem chatdb_C4_timestamp_counterexample :
    objGet (createDocumentA "id0" 0 sampleInput) "timestamp" = .vnum 0 ∧
    (match updateChatEmbeddingA "id0" sampleInput 1 storeAfterCreate with
     | .ok sr => objGet sr.2 "timestamp"
     | .error _ => .vnull) = .vnum 1 ∧
    JsVal.vnum 1 ≠ JsVal.vnum 0 := by
  refine ⟨rfl, rfl, ?_⟩
  intro h
  have h1 : (1 : ℚ) = 0 := by injection h
  exact one_ne_zero h1

/-- Claim C4, amended.  `create(x)` then `replace(id, x)` with the
identical full-contract payload keeps `created_at`, refreshes
`updated_at` to the (not earlier) replace-time clock, and keeps every
other field equal to the created record — except `timestamp`, which is
refreshed to the replace-time clock because the payload has no
`timestamp` field and the fallback `newEmbeddingData.timestamp || now`
applies. -/
theorem chatdb_C4_replace_identical_payload (d : JsObj) (store : Store)
    (newId : String) (now1 now2 : ℚ)
    (hacc : fullContractAccepts d = true)
    (hfresh : findOne store newId = none)
    (hts : objGet d "timestamp" = .vundefined)
    (hle : now1 ≤ now2) :
    ∃ s2 r,
      updateChatEmbeddingA newId d now2
        (createChatEmbeddingA d newId now1 store).1 = .ok (s2, r) ∧
      objGet r "created_at" = .vnum now1 ∧
      objGet r "updated_at" = .vnum now2 ∧
      now1 ≤ now2 ∧
      objGet r "timestamp" = .vnum now2 ∧
      objGet r "id" =
        objGet (publicRecord (createDocumentA newId now1 d)) "id" ∧
      objGet r "user_id" =
        objGet (publicRecord (createDocumentA newId now1 d)) "user_id" ∧
      objGet r "entry_id" =
        objGet (publicRecord (createDocumentA newId now1 d)) "entry_id" ∧
      objGet r "message_content" =
        objGet (publicRecord (createDocumentA newId now1 d)) "message_content" ∧
      objGet r "message_type" =
        objGet (publicRecord (createDocumentA newId now1 d)) "message_type" ∧
      objGet r "session_id" =
        objGet (publicRecord (createDocumentA newId now1 d)) "session_id" ∧
      objGet r "conversation_context" =
        objGet (publicRecord (createDocumentA newId now1 d))
          "conversation_context" ∧
      objGet r "primary_embedding" =
        objGet (publicRecord (createDocumentA newId now1 d))
          "primary_embedding" ∧
      objGet r "lightweight_embedding" =
        objGet (publicRecord (createDocumentA newId now1 d))
          "lightweight_embedding" ∧
      objGet r "text_length" =
        objGet (publicRecord (createDocumentA newId now1 d)) "text_length" ∧
      objGet r "processing_time_ms" =
        objGet (publicRecord (createDocumentA newId now1 d))
          "processing_time_ms" ∧
      objGet r "model_version" =
        objGet (publicRecord (createDocumentA newId now1 d)) "model_version" ∧
      objGet r "semantic_tags" =
        objGet (publicRecord (createDocumentA newId now1 d)) "semantic_tags" ∧
      objGet r "emotion_context" =
        objGet (publicRecord (createDocumentA newId now1 d)) "emotion_context" ∧
      objGet r "entities_mentioned" =
        objGet (publicRecord (createDocumentA newId now1 d))
          "entities_mentioned" ∧
      objGet r "feature_vector" =
        objGet (publicRecord (createDocumentA newId now1 d)) "feature_vector" ∧
      objGet r "temporal_features" =
        objGet (publicRecord (createDocumentA newId now1 d))
          "temporal_features" ∧
      objGet r "emotional_features" =
        objGet (publicRecord (createDocumentA newId now1 d))
          "emotional_features" ∧
      objGet r "semantic_features" =
        objGet (publicRecord (createDocumentA newId now1 d))
          "semantic_features" ∧
      objGet r "user_features" =
        objGet (publicRecord (createDocumentA newId now1 d)) "user_features" ∧
      objGet r "feature_completeness" =
        objGet (publicRecord (createDocumentA newId now1 d))
          "feature_completeness" ∧
      objGet r "confidence_score" =
        objGet (publicRecord (createDocumentA newId now1 d))
          "confidence_score" ∧
      objGet r "temporal_context" =
        objGet (publicRecord (createDocumentA newId now1 d))
          "temporal_context" := by
  have hfind := findOne_insert_create hfresh now1 d
  have hrepl : replaceOne (insertOne store (createDocumentA newId now1 d))
      newId (replacementDocumentA newId d now2 (.vnum now1)) =
      (store ++ [replacementDocumentA newId d now2 (.vnum now1)], 1) := by
    rw [insertOne, replaceOne_append hfresh]
    simp [replaceOne, idMatches_createDoc]
  have hfind2 : findOne
      (store ++ [replacementDocumentA newId d now2 (.vnum now1)]) newId =
      some (replacementDocumentA newId d now2 (.vnum now1)) := by
    rw [findOne_append hfresh]
    simp [findOne, idMatches_replacementDoc]
  have hok : updateChatEmbeddingA newId d now2
      (createChatEmbeddingA d newId now1 store).1 =
      .ok (store ++ [replacementDocumentA newId d now2 (.vnum now1)],
           publicRecord (replacementDocumentA newId d now2 (.vnum now1))) := by
    show updateChatEmbeddingA newId d now2
      (insertOne store (createDocumentA newId now1 d)) = _
    rw [updateChatEmbeddingA.eq_def, hfind]
    simp only []
    rw [show objGet (createDocumentA newId now1 d) "created_at" = .vnum now1
      from rfl]
    rw [hrepl]
    simp only [Nat.reduceBEq, Bool.false_eq_true, if_false, hfind2,
      Option.getD_some]
  refine ⟨_, _, hok, rfl, rfl, hle, ?_, rfl, rfl, rfl, rfl, rfl, rfl, rfl,
    rfl, rfl, rfl, rfl, rfl, rfl, rfl, rfl, rfl, rfl, rfl, rfl, rfl, rfl,
    rfl, rfl⟩
  show jsOr (objGet d "timestamp") (.vnum now2) = .vnum now2
  rw [hts]
  rfl

/-- Witness for the amended C4 at `sampleInput`, clocks 0 and 1. -/
theorem chatdb_C4_witness :
    fullContractAccepts sampleInput = true ∧
    ∃ s2 r,
      updateChatEmbeddingA "id0" sampleInput 1
        (createChatEmbeddingA sampleInput "id0" 0 []).1 = .ok (s2, r) ∧
      objGet r "created_at" = .vnum 0 ∧
      objGet r "updated_at" = .vnum 1 ∧
      objGet r "timestamp" = .vnum 1 := by
  have hacc : fullContractAccepts sampleInput = true := by decide
  obtain ⟨s2, r, hok, hca, hua, _, hts, _⟩ :=
    chatdb_C4_replace_identical_payload sampleInput [] "id0" 0 1 hacc rfl rfl
      (by norm_num)
  exact ⟨hacc, s2, r, hok, hca, hua, hts⟩

/-- Claim C5.  A creation input in which some fixed-length vector field is
an array of the wrong declared length is rejected by the `POST /` route
with a validation error before the service runs, leaving the store
untouched; consequently any document the create route ever adds to the
store has all seven vector fields at their declared exact lengths. -/
theorem chatdb_C5_vector_length_rejected (body : JsObj) (store : Store)
    (newId : String) (now : ℚ)
    (hbad : vecLenViolation body = true) :
    (postCreateRoute body store newId now).1 = .validationError ∧
    (postCreateRoute body store newId now).2 = store ∧
    (∀ (body' : JsObj) (store' : Store) (newId' : String) (now' : ℚ)
       (doc : JsObj),
       doc ∈ (postCreateRoute body' store' newId' now').2 →
       doc ∈ store' ∨ storedVectorsOk doc = true) := by
  have hrej : fullContractAccepts body = false := by
    simp only [vecLenViolation, vecFields, List.any_cons, List.any_nil,
      Bool.or_eq_true, Bool.or_false] at hbad
    rcases hbad with h | h | h | h | h | h | h <;>
      simp [fullContractAccepts, arrayLen_false_of_badLen h]
  refine ⟨by simp [postCreateRoute, hrej], by simp [postCreateRoute, hrej],
    ?_⟩
  intro body' store' newId' now' doc hmem
  by_cases hacc : fullContractAccepts body' = true
  · simp only [postCreateRoute, hacc, if_true, createChatEmbeddingA,
      insertOne, List.mem_append, List.mem_singleton] at hmem
    rcases hmem with h | h
    · exact Or.inl h
    · subst h
      obtain ⟨h1, h2, h3, h4, h5, h6, h7⟩ := accepts_vectors hacc
      have hvec : storedVectorsOk (createDocumentA newId' now' body') =
          (arrayOfNumbersLen (objGet body' "primary_embedding") 768 &&
           arrayOfNumbersLen (objGet body' "lightweight_embedding") 384 &&
           arrayOfNumbersLen (objGet body' "feature_vector") 90 &&
           arrayOfNumbersLen (objGet body' "temporal_features") 25 &&
           arrayOfNumbersLen (objGet body' "emotional_features") 20 &&
           arrayOfNumbersLen (objGet body' "semantic_features") 30 &&
           arrayOfNumbersLen (objGet body' "user_features") 15) := rfl
      refine Or.inr ?_
      rw [hvec, h1, h2, h3, h4, h5, h6, h7]
      rfl
  · have hf : fullContractAccepts body' = false := by
      revert hacc; cases fullContractAccepts body' <;> simp
    simp only [postCreateRoute, hf, Bool.false_eq_true, if_false] at hmem
    exact Or.inl hmem

/-- Witness for C5: a 767-entry primary embedding is rejected with a
validation error and zero store writes. -/
theorem chatdb_C5_witness :
    vecLenViolation badVectorInput = true ∧
    (postCreateRoute badVectorInput [] "w0" 0).1 = .validationError ∧
    (postCreateRoute badVectorInput [] "w0" 0).2 = [] := by
  have hbad : vecLenViolation badVectorInput = true := by decide
  obtain ⟨h1, h2, _⟩ :=
    chatdb_C5_vector_length_rejected badVectorInput [] "w0" 0 hbad
  exact ⟨hbad, h1, h2⟩

/-- Counterexample to claim C6 as stated: with a present
`emotion_filter.min_intensity = 0`, the source's truthiness test
`if (filters.emotion_filter.min_intensity)` skips the clause, so a stored
record with no `emotion_context` at all is returned even though it has no
`emotion_context.intensity ≥ 0`. -/
theorem chatdb_C6_min_intensity_zero_counterexample :
    zeroIntensityFilters.emotion_filter = some ⟨none, some 0⟩ ∧
    docMatches (buildSimilarQuery zeroIntensityFilters) noEmotionDoc = true ∧
    noEmotionDoc ∈ similarReturnedDocs zeroIntensityFilters [noEmotionDoc] ∧
    intensityAtLeast noEmotionDoc 0 = false := by
  refine ⟨rfl, rfl, ?_, rfl⟩
  rw [show similarReturnedDocs zeroIntensityFilters [noEmotionDoc] =
    [noEmotionDoc] from rfl]
  exact List.mem_singleton.mpr rfl

/-- Claim C6, amended.  Absent filters impose no constraint (an empty
filter set matches every document); a present `min_intensity = m` with
`m > 0` is an inclusive lower bound on `emotion_context.intensity` for
every matching document; and a `date_range` contributes the half-open or
closed timestamp range determined by which bounds are present.  The `m = 0`
case of the original claim is excluded: JavaScript truthiness drops the
clause, so no intensity constraint is applied then. -/
theorem chatdb_C6_filter_composition :
    (∀ d : JsObj, docMatches (buildSimilarQuery noFilters) d = true) ∧
    (∀ (f : SimilarFilters) (ef : EmotionFilter) (m : ℚ) (d : JsObj),
      f.emotion_filter = some ef → ef.min_intensity = some m → 0 < m →
      docMatches (buildSimilarQuery f) d = true →
      intensityAtLeast d m = true) ∧
    (∀ (g l t : ℚ) (d : JsObj), objGet d "timestamp" = .vnum t →
      (docMatches (buildSimilarQuery (dateFilters (some g) (some l))) d = true
        ↔ g ≤ t ∧ t ≤ l) ∧
      (docMatches (buildSimilarQuery (dateFilters (some g) none)) d = true
        ↔ g ≤ t) ∧
      (docMatches (buildSimilarQuery (dateFilters none (some l))) d = true
        ↔ t ≤ l)) := by
  refine ⟨fun d => rfl, ?_, ?_⟩
  · intro f ef m d hef hmin hm hmatch
    have hqmin : (buildSimilarQuery f).qmin = some m := by
      simp [buildSimilarQuery, hef, hmin, ne_of_gt hm]
    simp only [docMatches, hqmin, Bool.and_eq_true] at hmatch
    have h1 := hmatch.1.2
    simpa only [intensityAtLeast] using h1
  · intro g l t d hts
    refine ⟨?_, ?_, ?_⟩ <;>
      simp [docMatches, buildSimilarQuery, dateFilters, presentStr, tsGe,
        tsLe, hts]

/-- Witness for the amended C6: an empty filter set matches the
emotionless document; `min_intensity = 1` forces intensity ≥ 1 on the
matching `emotionDoc`; a closed date range 1..10 matches timestamp 5. -/
theorem chatdb_C6_witness :
    docMatches (buildSimilarQuery noFilters) noEmotionDoc = true ∧
    intensityAtLeast emotionDoc 1 = true ∧
    docMatches (buildSimilarQuery (dateFilters (some 1) (some 10)))
      noEmotionDoc = true := by
  refine ⟨chatdb_C6_filter_composition.1 noEmotionDoc, ?_, ?_⟩
  · exact chatdb_C6_filter_composition.2.1 oneIntensityFilters
      ⟨none, some 1⟩ 1 emotionDoc rfl rfl (by norm_num) (by decide)
  · exact ((chatdb_C6_filter_composition.2.2 1 10 5 noEmotionDoc rfl).1).mpr
      ⟨by norm_num, by norm_num⟩

/-- Claim C7.  The pagination metadata of the paginated query:
`current_page = floor(offset/limit) + 1`, `total_pages =
ceil(totalCount/limit)` (given in closed natural-number form),
`has_next = (offset + limit < totalCount)`, `has_previous = (offset > 0)`;
and the two concrete scenarios over 25 matching documents. -/
theorem chatdb_C7_pagination (totalCount offset limit : Nat)
    (hl : 1 ≤ limit) :
    (queryPagination totalCount offset limit).current_page =
      offset / limit + 1 ∧
    (queryPagination totalCount offset limit).total_pages =
      (totalCount + limit - 1) / limit ∧
    ((queryPagination totalCount offset limit).has_next = true ↔
      offset + limit < totalCount) ∧
    ((queryPagination totalCount offset limit).has_previous = true ↔
      0 < offset) ∧
    (queryPagination 25 0 10).total_pages = 3 ∧
    (queryPagination 25 0 10).has_next = true ∧
    (queryPagination 25 0 10).has_previous = false ∧
    (queryPagination 25 20 10).has_next = false ∧
    (queryPagination 25 20 10).has_previous = true := by
  refine ⟨?_, ?_, ?_, ?_, ?_, by decide, by decide, by decide, by decide⟩
  · simp [queryPagination, nat_floor_div_eq]
  · simp [queryPagination, nat_ceil_div_eq totalCount limit hl]
  · simp [queryPagination]
  · simp [queryPagination]
  · norm_num [queryPagination, Nat.ceil_eq_iff]

/-- Witness for C7 at `totalCount = 25`, `offset = 20`, `limit = 10`. -/
theorem chatdb_C7_witness :
    (queryPagination 25 20 10).current_page = 20 / 10 + 1 ∧
    (queryPagination 25 20 10).total_pages = (25 + 10 - 1) / 10 := by
  obtain ⟨h1, h2, _⟩ := chatdb_C7_pagination 25 20 10 (by norm_num)
  exact ⟨h1, h2⟩

/-- Claim C8.  The service-side `||` fallbacks do default `semantic_tags`
to `[]` and `entities_mentioned` to empty lists on the persisted record —
but the per-emotion zero defaults declared in `emotionSchema` never reach
it: the validation middleware discards Joi's defaulted value and the
service persists the raw `emotion_context` verbatim.  At the concrete
accepted input whose `emotions` map sets only `joy`, the persisted
record's `emotion_context.emotions.sadness` is `undefined`, not `0`. -/
theorem chatdb_C8_emotion_defaults_not_persisted :
    fullContractAccepts sparseEmotionInput = true ∧
    objGet (createDocumentA "id8" 0 sparseEmotionInput) "semantic_tags" =
      .varr [] ∧
    objGet (createDocumentA "id8" 0 sparseEmotionInput) "entities_mentioned" =
      emptyEntities ∧
    objField (objField
      (objGet (createDocumentA "id8" 0 sparseEmotionInput) "emotion_context")
      "emotions") "joy" = .vnum 0 ∧
    objField (objField
      (objGet (createDocumentA "id8" 0 sparseEmotionInput) "emotion_context")
      "emotions") "sadness" = .vundefined ∧
    JsVal.vundefined ≠ JsVal.vnum 0 := by
  refine ⟨by decide, rfl, rfl, rfl, rfl, fun h => JsVal.noConfusion h⟩

/-- Counterexample to claim C9 as stated: the record returned directly by
`create` is not in the public record shape — at the concrete accepted
input it carries the store-internal keys `_id` and `$vector` (plus
`insertedId`) and has no `primary_embedding` key at all. -/
theorem chatdb_C9_raw_shape_counterexample :
    objHasKey ((createChatEmbeddingA sampleInput "id9" 0 []).2) "$vector" =
      true ∧
    objHasKey ((createChatEmbeddingA sampleInput "id9" 0 []).2) "_id" =
      true ∧
    objHasKey ((createChatEmbeddingA sampleInput "id9" 0 []).2) "insertedId" =
      true ∧
    objHasKey ((createChatEmbeddingA sampleInput "id9" 0 []).2)
      "primary_embedding" = false :=
  ⟨rfl, rfl, rfl, rfl⟩

/-- Claim C9, amended.  `create` does return the full record including the
assigned id (under `id`), but otherwise in the raw store shape: the
768-dimension vector sits under the store slot `$vector` (not under the
public name `primary_embedding`), next to `_id` and `insertedId`; only the
read path (`getById`) maps the stored document to the public shape, where
`primary_embedding` is present and `$vector` is not. -/
theorem chatdb_C9_create_returns_raw_document (d : JsObj) (store : Store)
    (newId : String) (now : ℚ)
    (hfresh : findOne store newId = none) :
    objGet ((createChatEmbeddingA d newId now store).2) "id" = .vstr newId ∧
    objHasKey ((createChatEmbeddingA d newId now store).2) "_id" = true ∧
    objHasKey ((createChatEmbeddingA d newId now store).2) "$vector" = true ∧
    objHasKey ((createChatEmbeddingA d newId now store).2) "insertedId" =
      true ∧
    objHasKey ((createChatEmbeddingA d newId now store).2)
      "primary_embedding" = false ∧
    objGet ((createChatEmbeddingA d newId now store).2) "$vector" =
      objGet d "primary_embedding" ∧
    getChatEmbeddingById newId (createChatEmbeddingA d newId now store).1 =
      .ok (publicRecord (createDocumentA newId now d)) ∧
    objGet (publicRecord (createDocumentA newId now d)) "primary_embedding" =
      objGet d "primary_embedding" ∧
    objHasKey (publicRecord (createDocumentA newId now d)) "$vector" =
      false ∧
    objHasKey (publicRecord (createDocumentA newId now d)) "_id" = false := by
  have hfind := findOne_insert_create hfresh now d
  have hok : getChatEmbeddingById newId
      (createChatEmbeddingA d newId now store).1 =
      .ok (publicRecord (createDocumentA newId now d)) := by
    show getChatEmbeddingById newId
      (insertOne store (createDocumentA newId now d)) = _
    simp only [getChatEmbeddingById, hfind]
  exact ⟨rfl, rfl, rfl, rfl, rfl, rfl, hok, rfl, rfl, rfl⟩

/-- Witness for the amended C9 at `sampleInput`. -/
theorem chatdb_C9_witness :
    objGet ((createChatEmbeddingA sampleInput "id9" 0 []).2) "id" =
      .vstr "id9" ∧
    getChatEmbeddingById "id9" (createChatEmbeddingA sampleInput "id9" 0 []).1
      = .ok (publicRecord (createDocumentA "id9" 0 sampleInput)) := by
  obtain ⟨h1, _, _, _, _, _, h7, _⟩ :=
    chatdb_C9_create_returns_raw_document sampleInput [] "id9" 0 rfl
  exact ⟨h1, h7⟩

/-- Claim C10.  The per-record projection of the paginated query carries
neither `primary_embedding` nor `lightweight_embedding`, whereas the
`getById` record shape and each `findSimilar` result carry both in full
(the primary one read back from the `$vector` slot). -/
theorem chatdb_C10_vector_projection (r : JsObj) :
    objHasKey (queryResultItemA r) "primary_embedding" = false ∧
    objHasKey (queryResultItemA r) "lightweight_embedding" = false ∧
    objHasKey (publicRecord r) "primary_embedding" = true ∧
    objHasKey (publicRecord r) "lightweight_embedding" = true ∧
    objGet (publicRecord r) "primary_embedding" = objGet r "$vector" ∧
    objGet (publicRecord r) "lightweight_embedding" =
      objGet r "lightweight_embedding" ∧
    objHasKey (similarResultItemA r) "primary_embedding" = true ∧
    objHasKey (similarResultItemA r) "lightweight_embedding" = true ∧
    objGet (similarResultItemA r) "primary_embedding" = objGet r "$vector" ∧
    objGet (similarResultItemA r) "lightweight_embedding" =
      objGet r "lightweight_embedding" :=
  ⟨rfl, rfl, rfl, rfl, rfl, rfl, rfl, rfl, rfl, rfl⟩

end ChatEmbeddingDB
